import Mathlib

/-!
Shallow embedding of the command dispatch and scheduling subsystem of
`src/main.py` (a Python interactive command terminal).  Pure logic is
translated directly; the operating-system collaborators (filesystem
primitives, process spawning, the resource sampler and the weather API)
are modelled as explicit state / oracle functions, as the specification
scopes them out as black-box services.  Console output is modelled as a
list of `Output` values, with only the error-vs-plain styling
distinction retained.
-/

/-- Python's ASCII whitespace class `\s` (space, tab, newline, carriage
return, vertical tab, form feed); its complement is the `\S` used by the
natural-language patterns. -/
def pyIsSpace (c : Char) : Bool :=
  c = ' ' || c = '\t' || c = '\n' || c = '\r' || c = '\x0b' || c = '\x0c'

/-- One line printed to the console.  `out` is a plain (possibly styled)
print, `err` is an error-styled line (`print_error` output or a child
process's stderr printed in red). -/
inductive Output where
  | out (text : String)
  | err (text : String)
deriving DecidableEq

/-- `print_error` from src/main.py line 35: prints "Error: {message}" in
an error style. -/
def printError (m : String) : Output := Output.err ("Error: " ++ m)

/-- Kind of a filesystem entry. -/
inductive EntryKind where
  | file
  | dir
deriving DecidableEq

/-- Model of the filesystem collaborator.  `entries` maps path strings to
entry kinds; `denied` are paths whose access raises PermissionError;
`osFail` are paths whose access raises a generic OSError; `execOk` are
paths for which `os.access(path, os.X_OK)` is true. -/
structure FS where
  entries : List (String × EntryKind)
  denied : List String
  osFail : List String
  execOk : List String
deriving DecidableEq

/-- `os.path.exists`. -/
def pathExists (fs : FS) (p : String) : Bool :=
  fs.entries.any (fun e => e.1 == p)

/-- `os.path.isdir`. -/
def isDirF (fs : FS) (p : String) : Bool :=
  fs.entries.lookup p == some EntryKind.dir

/-- Errors raised by the modelled `os.mkdir`. -/
inductive MkdirErr where
  | exists
  | perm
  | other (msg : String)
deriving DecidableEq

/-- The `os.mkdir` collaborator: FileExistsError when the path exists,
PermissionError on denied paths, generic OSError on osFail paths,
otherwise the directory is created. -/
def mkdirPrim (fs : FS) (d : String) : Except MkdirErr FS :=
  if pathExists fs d then Except.error MkdirErr.exists
  else if d ∈ fs.denied then Except.error MkdirErr.perm
  else if d ∈ fs.osFail then Except.error (MkdirErr.other "OS error")
  else Except.ok { fs with entries := fs.entries ++ [(d, EntryKind.dir)] }

/-- Errors raised by the modelled `os.remove` / `shutil.rmtree`. -/
inductive RmErr where
  | perm
  | other (msg : String)
deriving DecidableEq

/-- Deleting an entry from the modelled filesystem. -/
def deleteEntry (fs : FS) (t : String) : FS :=
  { fs with entries := fs.entries.filter (fun e => e.1 != t) }

/-- The `shutil.rmtree` collaborator (called on directories). -/
def rmtreePrim (fs : FS) (t : String) : Except RmErr FS :=
  if t ∈ fs.denied then Except.error RmErr.perm
  else if t ∈ fs.osFail then Except.error (RmErr.other "OS error")
  else Except.ok (deleteEntry fs t)

/-- The `os.remove` collaborator (called on non-directories). -/
def removePrim (fs : FS) (t : String) : Except RmErr FS :=
  if t ∈ fs.denied then Except.error RmErr.perm
  else if t ∈ fs.osFail then Except.error (RmErr.other "OS error")
  else Except.ok (deleteEntry fs t)

/-- One iteration of the `for directory in args` loop of `cmd_mkdir`
(src/main.py lines 115-124): try `os.mkdir`, classify the failure
locally, never abort. -/
def mkdirOne (fs : FS) (d : String) : FS × Output :=
  match mkdirPrim fs d with
  | Except.ok fs' => (fs', Output.out ("Directory '" ++ d ++ "' created."))
  | Except.error MkdirErr.exists =>
      (fs, printError ("mkdir: cannot create directory '" ++ d ++ "': File exists"))
  | Except.error MkdirErr.perm =>
      (fs, printError ("mkdir: cannot create directory '" ++ d ++ "': Permission denied"))
  | Except.error (MkdirErr.other m) =>
      (fs, printError ("mkdir: cannot create directory '" ++ d ++ "': " ++ m))

/-- The whole `for` loop of `cmd_mkdir`: each target is processed in
order, threading the filesystem state. -/
def mkdirList : FS → List String → FS × List Output
  | fs, [] => (fs, [])
  | fs, d :: ds =>
      let p := mkdirOne fs d
      let q := mkdirList p.1 ds
      (q.1, p.2 :: q.2)

/-- `cmd_mkdir` from src/main.py lines 111-124. -/
def cmd_mkdir (fs : FS) (args : List String) : FS × List Output :=
  if args = [] then (fs, [printError "mkdir: missing operand"])
  else mkdirList fs args

/-- One iteration of the `for target in args` loop of `cmd_rm`
(src/main.py lines 130-143): missing targets are reported and skipped,
directories go through `shutil.rmtree`, files through `os.remove`,
failures are classified locally. -/
def rmOne (fs : FS) (t : String) : FS × Output :=
  if pathExists fs t = false then
    (fs, printError ("rm: cannot remove '" ++ t ++ "': No such file or directory"))
  else
    match (if isDirF fs t then rmtreePrim fs t else removePrim fs t) with
    | Except.ok fs' => (fs', Output.out ("Removed '" ++ t ++ "'."))
    | Except.error RmErr.perm =>
        (fs, printError ("rm: cannot remove '" ++ t ++ "': Permission denied"))
    | Except.error (RmErr.other m) =>
        (fs, printError ("rm: cannot remove '" ++ t ++ "': " ++ m))

/-- The whole `for` loop of `cmd_rm`. -/
def rmList : FS → List String → FS × List Output
  | fs, [] => (fs, [])
  | fs, t :: ts =>
      let p := rmOne fs t
      let q := rmList p.1 ts
      (q.1, p.2 :: q.2)

/-- `cmd_rm` from src/main.py lines 126-143. -/
def cmd_rm (fs : FS) (args : List String) : FS × List Output :=
  if args = [] then (fs, [printError "rm: missing operand"])
  else rmList fs args

/-- ASCII digit test, as used by CPython's strptime patterns. -/
def isAsciiDigit (c : Char) : Bool := '0' ≤ c && c ≤ '9'

/-- The remainders left by CPython's `%H` pattern `(2[0-3]|[0-1]\d|\d)`,
alternatives in order (backtracking tries each). -/
def hourAlts (cs : List Char) : List (List Char) :=
  (match cs with
   | '2' :: c :: r => if '0' ≤ c && c ≤ '3' then [r] else []
   | _ => []) ++
  (match cs with
   | a :: b :: r => if (a = '0' || a = '1') && isAsciiDigit b then [r] else []
   | _ => []) ++
  (match cs with
   | a :: r => if isAsciiDigit a then [r] else []
   | _ => [])

/-- The remainders left by CPython's `%M` pattern `([0-5]\d|\d)`. -/
def minuteAlts (cs : List Char) : List (List Char) :=
  (match cs with
   | a :: b :: r => if ('0' ≤ a && a ≤ '5') && isAsciiDigit b then [r] else []
   | _ => []) ++
  (match cs with
   | a :: r => if isAsciiDigit a then [r] else []
   | _ => [])

/-- `datetime.strptime(time_str, "%H:%M")` succeeds: the string must be
`%H`, a colon, `%M`, with nothing left over ("unconverted data remains"
is a ValueError). -/
def validHHMM (t : String) : Bool :=
  (hourAlts t.data).any (fun r1 =>
    match r1 with
    | ':' :: r2 => (minuteAlts r2).any (fun r3 => r3 = ([] : List Char))
    | _ => false)

/-- A scheduled job: the trigger time-of-day string handed to the
schedule library and the captured command token list. -/
structure Job where
  time : String
  command : List String
deriving DecidableEq

/-- `cmd_schedule` from src/main.py lines 342-369.  The schedule-library
call `schedule.every().day.at(time_str).do(job)` is the registration
collaborator, modelled as appending one job to the in-memory job list
(per the specification, registration succeeds once the time string has
been parsed). -/
def cmd_schedule (args : List String) (jobs : List Job) : List Job × List Output :=
  if args.length < 3 then
    (jobs, [printError "schedule: usage: schedule <command...> at HH:MM"])
  else
    match args.findIdx? (fun a => a == "at") with
    | none => (jobs, [printError "schedule: missing 'at' keyword"])
    | some i =>
      let command := args.take i
      match args[i + 1]? with
      | none => (jobs, [printError "schedule: missing time after 'at'"])
      | some t =>
        if t = "" then (jobs, [printError "schedule: missing time after 'at'"])
        else if validHHMM t then
          (jobs ++ [{ time := t, command := command }],
           [Output.out ("Scheduled command '" ++ String.intercalate " " command ++ "' at " ++ t)])
        else (jobs, [printError "schedule: time must be in HH:MM format"])

/-- Match a literal character sequence at the head of the input,
returning the remainder. -/
def matchLit : List Char → List Char → Option (List Char)
  | [], s => some s
  | _ :: _, [] => none
  | l :: ls, c :: cs => if c = l then matchLit ls cs else none

/-- A regex group `(\S+)`: the maximal non-empty run of non-whitespace
characters at the head of the input, with the remainder. -/
def takeTok (cs : List Char) : Option (List Char × List Char) :=
  let tok := cs.takeWhile (fun c => !pyIsSpace c)
  if tok = [] then none else some (tok, cs.dropWhile (fun c => !pyIsSpace c))

/-- Greedy `.*` prefix matching of Python's `re.match(r'.*REST', s)`:
`.` does not cross a newline, and greediness means the match of `REST`
at the right-most legal position wins (that position's groups are
returned). -/
def scanGreedy {α : Type} (f : List Char → Option α) : List Char → Option α
  | [] => f []
  | c :: cs =>
    if c = '\n' then f (c :: cs)
    else
      match scanGreedy f cs with
      | some v => some v
      | none => f (c :: cs)

def createLit : List Char := ['c', 'r', 'e', 'a', 't', 'e', ' ']
def aLit : List Char := ['a', ' ']
def folderLit : List Char := ['f', 'o', 'l', 'd', 'e', 'r', ' ']
def directoryLit : List Char := ['d', 'i', 'r', 'e', 'c', 't', 'o', 'r', 'y', ' ']
def moveLit : List Char := ['m', 'o', 'v', 'e', ' ']
def toLit : List Char := ['t', 'o', ' ']
def intoLit : List Char := ['i', 'n', 't', 'o', ' ']
def removeLit : List Char := ['r', 'e', 'm', 'o', 'v', 'e', ' ']
def listFilesInLit : List Char :=
  ['l', 'i', 's', 't', ' ', 'f', 'i', 'l', 'e', 's', ' ', 'i', 'n', ' ']

/-- The `(folder|directory) (\S+)` tail of the create pattern,
alternatives tried in order; the group is the extracted name. -/
def folderDirTail (cs : List Char) : Option String :=
  match matchLit folderLit cs with
  | some r => (takeTok r).map (fun p => String.mk p.1)
  | none =>
    match matchLit directoryLit cs with
    | some r => (takeTok r).map (fun p => String.mk p.1)
    | none => none

/-- The suffix pattern `create (a )?(folder|directory) (\S+)` of
src/main.py line 189.  The optional `(a )?` is greedy: it is consumed
first and released on failure of the rest. -/
def createTail (cs : List Char) : Option String :=
  match matchLit createLit cs with
  | none => none
  | some r =>
    match matchLit aLit r with
    | some r2 =>
      match folderDirTail r2 with
      | some n => some n
      | none => folderDirTail r
    | none => folderDirTail r

/-- The suffix pattern `move (\S+) (to|into) (\S+)` of src/main.py
line 201; groups 1 and 3 are the source and destination. -/
def moveTail (cs : List Char) : Option (String × String) :=
  match matchLit moveLit cs with
  | none => none
  | some r =>
    match takeTok r with
    | none => none
    | some (src, r1) =>
      match matchLit [' '] r1 with
      | none => none
      | some r2 =>
        match (match matchLit toLit r2 with
               | some r3 => some r3
               | none => matchLit intoLit r2) with
        | none => none
        | some r3 =>
          match takeTok r3 with
          | none => none
          | some (dst, _) => some (String.mk src, String.mk dst)

/-- The suffix pattern `remove (\S+)` of src/main.py line 221. -/
def removeTail (cs : List Char) : Option String :=
  match matchLit removeLit cs with
  | none => none
  | some r => (takeTok r).map (fun p => String.mk p.1)

/-- The suffix pattern `list files in (\S+)` of src/main.py line 237. -/
def listTail (cs : List Char) : Option String :=
  match matchLit listFilesInLit cs with
  | none => none
  | some r => (takeTok r).map (fun p => String.mk p.1)

/-- `command.lower()` followed by conversion to a character list
(`str.lower` on the ASCII phrases at issue is per-character
lowercasing). -/
def lowerChars (s : String) : List Char := s.data.map Char.toLower

/-- The closed set of intents the pattern matcher can produce. -/
inductive Intent where
  | createFolder (name : String)
  | moveEntry (src dst : String)
  | removeEntry (target : String)
  | listFolder (folder : String)
  | unrecognized
deriving DecidableEq

/-- The pure classification performed by `parse_natural_language`
(src/main.py lines 186-255): the four `re.match` tests are tried in the
fixed order create, move, remove, list, and the first whose pattern
matches determines the intent and its extracted groups. -/
def nlIntent (phrase : String) : Intent :=
  let cs := lowerChars phrase
  match scanGreedy createTail cs with
  | some n => Intent.createFolder n
  | none =>
    match scanGreedy moveTail cs with
    | some p => Intent.moveEntry p.1 p.2
    | none =>
      match scanGreedy removeTail cs with
      | some t => Intent.removeEntry t
      | none =>
        match scanGreedy listTail cs with
        | some f => Intent.listFolder f
        | none => Intent.unrecognized


/-- The effect of the create branch of `parse_natural_language`
(src/main.py lines 190-199): `os.mkdir`, with FileExistsError reported
specially and any other failure reported generically. -/
def nlCreateEffect (fs : FS) (name : String) : FS × List Output :=
  match mkdirPrim fs name with
  | Except.ok fs' => (fs', [Output.out ("Folder '" ++ name ++ "' created.")])
  | Except.error MkdirErr.exists =>
      (fs, [printError ("Folder '" ++ name ++ "' already exists.")])
  | Except.error MkdirErr.perm =>
      (fs, [printError ("Error creating folder '" ++ name ++ "': permission denied")])
  | Except.error (MkdirErr.other m) =>
      (fs, [printError ("Error creating folder '" ++ name ++ "': " ++ m)])

/-- `shutil.move` of an entry into an existing directory; reaching it
requires the guards of the move branch to have passed. -/
def movePrim (fs : FS) (src dst : String) : Except String FS :=
  if src ∈ fs.osFail || dst ∈ fs.osFail then Except.error "OS error"
  else
    match fs.entries.lookup src with
    | none => Except.error "source vanished"
    | some k =>
        Except.ok { fs with
          entries := (fs.entries.filter (fun e => e.1 != src)) ++ [(dst ++ "/" ++ src, k)] }

/-- The effect of the move branch of `parse_natural_language`
(src/main.py lines 202-219): source-existence, destination-existence and
destination-is-a-directory guards, in that order, each reporting an
error and leaving the filesystem untouched; only then `shutil.move`. -/
def nlMoveEffect (fs : FS) (src dst : String) : FS × List Output :=
  if pathExists fs src = false then
    (fs, [printError ("Source file '" ++ src ++ "' does not exist.")])
  else if pathExists fs dst = false then
    (fs, [printError ("Destination folder '" ++ dst ++ "' does not exist.")])
  else if isDirF fs dst = false then
    (fs, [printError ("Destination '" ++ dst ++ "' is not a folder.")])
  else
    match movePrim fs src dst with
    | Except.ok fs' => (fs', [Output.out ("Moved '" ++ src ++ "' to '" ++ dst ++ "'.")])
    | Except.error m => (fs, [printError ("Error moving file: " ++ m)])

/-- The effect of the remove branch of `parse_natural_language`
(src/main.py lines 222-235). -/
def nlRemoveEffect (fs : FS) (target : String) : FS × List Output :=
  if pathExists fs target = false then
    (fs, [printError ("'" ++ target ++ "' does not exist.")])
  else
    match (if isDirF fs target then rmtreePrim fs target else removePrim fs target) with
    | Except.ok fs' => (fs', [Output.out ("Removed '" ++ target ++ "'.")])
    | Except.error RmErr.perm =>
        (fs, [printError ("Error removing '" ++ target ++ "': permission denied")])
    | Except.error (RmErr.other m) =>
        (fs, [printError ("Error removing '" ++ target ++ "': " ++ m)])

/-- `os.listdir` for the modelled filesystem: the immediate children of
a directory path (the current directory for `"."`). -/
def childrenOf (fs : FS) (p : String) : List String :=
  fs.entries.filterMap (fun e =>
    if p = "." then
      if e.1.data.contains '/' then none else some e.1
    else
      if (p ++ "/").isPrefixOf e.1 && !((e.1.drop (p.length + 1)).data.contains '/') then
        some (e.1.drop (p.length + 1))
      else none)

/-- The effect of the list branch of `parse_natural_language`
(src/main.py lines 238-253); the listing is not sorted there. -/
def nlListEffect (fs : FS) (folder : String) : FS × List Output :=
  if pathExists fs folder = false then
    (fs, [printError ("Folder '" ++ folder ++ "' does not exist.")])
  else if isDirF fs folder = false then
    (fs, [printError ("'" ++ folder ++ "' is not a folder.")])
  else
    (fs, Output.out ("Files in '" ++ folder ++ "':") ::
         (childrenOf fs folder).map Output.out)

/-- `parse_natural_language` from src/main.py lines 186-255: lower-case
the phrase, try the four patterns in order, perform the side effect of
the first match, or report the could-not-understand error. -/
def parse_natural_language (fs : FS) (phrase : String) : FS × List Output :=
  let cs := lowerChars phrase
  match scanGreedy createTail cs with
  | some n => nlCreateEffect fs n
  | none =>
    match scanGreedy moveTail cs with
    | some p => nlMoveEffect fs p.1 p.2
    | none =>
      match scanGreedy removeTail cs with
      | some t => nlRemoveEffect fs t
      | none =>
        match scanGreedy listTail cs with
        | some f => nlListEffect fs f
        | none => (fs, [printError "Sorry, I could not understand the command."])

/-- Result of the process-spawn collaborator (`subprocess.run` with
captured text output): completion with the full stdout and stderr,
FileNotFoundError for a missing executable, or any other launch
failure with its cause. -/
inductive SpawnResult where
  | completed (stdout stderr : String)
  | notFound
  | failed (msg : String)

/-- Host family, `sys.platform == 'win32'` or not. -/
inductive Platform where
  | win32
  | posix
deriving DecidableEq

/-- Result of the weather-lookup collaborator behind `cmd_fetch`. -/
inductive FetchResult where
  | found (desc temp : String)
  | cityNotFound
  | netErr (msg : String)

/-- Whole-process state: the filesystem and current directory, the
in-memory scheduled-job list, and the oracle functions standing for the
excluded collaborators (process spawning, weather lookup, resource
sampler). -/
structure Sys where
  fs : FS
  cwd : String
  home : String
  jobs : List Job
  platform : Platform
  pythonExe : String
  spawn : String → List String → SpawnResult
  weather : String → FetchResult
  cpuPct : Nat
  memPct : Nat
  memUsedMB : Nat
  memTotalMB : Nat

/-- Insertion of a string into a lexicographically sorted list;
`files.sort()` in `cmd_ls` is this fold. -/
def insertSorted (x : String) : List String → List String
  | [] => [x]
  | y :: ys => if x ≤ y then x :: y :: ys else y :: insertSorted x ys

def sortStrings (l : List String) : List String := l.foldr insertSorted []

/-- Error kinds of the modelled `os.listdir` / `os.chdir`, matching the
exception classes `cmd_ls` and `cmd_cd` catch. -/
inductive DirErr where
  | notFound
  | notADir
  | perm
deriving DecidableEq

/-- The `os.listdir` collaborator. -/
def listdirPrim (fs : FS) (p : String) : Except DirErr (List String) :=
  if p ≠ "." && pathExists fs p = false then Except.error DirErr.notFound
  else if p ≠ "." && isDirF fs p = false then Except.error DirErr.notADir
  else if p ∈ fs.denied then Except.error DirErr.perm
  else Except.ok (childrenOf fs p)

/-- `os.path.join` for the listing loop (the `"."` case is resolved to
the bare name, as the OS resolves `./f` to `f`). -/
def osJoin (p f : String) : String := if p = "." then f else p ++ "/" ++ f

/-- `cmd_ls` from src/main.py lines 76-92: list, sort, print each entry
(directories merely styled differently, modelled as plain output). -/
def cmd_ls (s : Sys) (args : List String) : List Output :=
  let path := args.headD "."
  match listdirPrim s.fs path with
  | Except.ok files => (sortStrings files).map Output.out
  | Except.error DirErr.notFound =>
      [printError ("ls: cannot access '" ++ path ++ "': No such file or directory")]
  | Except.error DirErr.notADir =>
      [printError ("ls: cannot access '" ++ path ++ "': Not a directory")]
  | Except.error DirErr.perm =>
      [printError ("ls: cannot open directory '" ++ path ++ "': Permission denied")]

/-- The `os.chdir` collaborator. -/
def chdirPrim (fs : FS) (t : String) : Except DirErr Unit :=
  if pathExists fs t = false then Except.error DirErr.notFound
  else if isDirF fs t = false then Except.error DirErr.notADir
  else if t ∈ fs.denied then Except.error DirErr.perm
  else Except.ok ()

/-- `cmd_cd` from src/main.py lines 94-106: home directory when no
argument is given, three classified error kinds otherwise. -/
def cmd_cd (s : Sys) (args : List String) : Sys × List Output :=
  let target := match args with
    | [] => s.home
    | t :: _ => t
  match chdirPrim s.fs target with
  | Except.ok _ => ({ s with cwd := target }, [])
  | Except.error DirErr.notFound =>
      (s, [printError ("cd: no such file or directory: " ++ target)])
  | Except.error DirErr.notADir =>
      (s, [printError ("cd: not a directory: " ++ target)])
  | Except.error DirErr.perm =>
      (s, [printError ("cd: permission denied: " ++ target)])

/-- `cmd_pwd` from src/main.py lines 108-109. -/
def cmd_pwd (s : Sys) : List Output := [Output.out s.cwd]

/-- `cmd_help` from src/main.py lines 145-158. -/
def cmd_help : List Output :=
  [Output.out "Supported commands:",
   Output.out "  ls [path]       - list directory contents",
   Output.out "  cd [path]       - change directory",
   Output.out "  pwd             - print current directory",
   Output.out "  mkdir <dir>...  - create directories",
   Output.out "  rm <file/dir>...- remove files or directories",
   Output.out "  monitor         - show CPU and memory usage",
   Output.out "  ai <natural language command> - execute natural language commands",
   Output.out "  run <script>    - run Python, shell scripts (Unix), or executables",
   Output.out "  schedule <command> at HH:MM - schedule a command to run daily at specified time",
   Output.out "  fetch <query>   - fetch info from web APIs (e.g. weather)",
   Output.out "  exit            - exit the terminal",
   Output.out "  help            - show this help message"]

/-- `cmd_monitor` from src/main.py lines 160-184; the resource sampler
is a collaborator, its percentages are fields of `Sys` (bars are
presentation only). -/
def cmd_monitor (s : Sys) : List Output :=
  [Output.out "CPU Usage:",
   Output.out (toString s.cpuPct ++ "%"),
   Output.out "Memory Usage:",
   Output.out (toString s.memPct ++ "% (" ++ toString s.memUsedMB ++ " MB used of " ++
     toString s.memTotalMB ++ " MB)")]

/-- `cmd_ai` from src/main.py lines 257-262: join the arguments with
single spaces and delegate to `parse_natural_language`. -/
def cmd_ai (s : Sys) (args : List String) : Sys × List Output :=
  if args = [] then (s, [printError "ai: missing natural language command"])
  else
    let p := parse_natural_language s.fs (String.intercalate " " args)
    ({ s with fs := p.1 }, p.2)

/-- Last index of a character in a list, as Python's `str.rfind`
(-1 when absent). -/
def rfindIdx (cs : List Char) (c : Char) : Int :=
  match cs with
  | [] => -1
  | x :: xs =>
    let r := rfindIdx xs c
    if r ≥ 0 then r + 1 else if x = c then 0 else -1

/-- `os.path.splitext(p)[1]`: the suffix starting at the last dot of the
base name, empty when that dot has no earlier non-dot character in the
base name (so dot-files have no extension).  Faithful port of
`genericpath._splitext`; on win32 both separators delimit the base
name. -/
def pySplitextExt (platform : Platform) (p : String) : String :=
  let cs := p.data
  let sepIndex : Int :=
    match platform with
    | Platform.win32 => max (rfindIdx cs '\\') (rfindIdx cs '/')
    | Platform.posix => rfindIdx cs '/'
  let dotIndex : Int := rfindIdx cs '.'
  if dotIndex > sepIndex then
    let between := (cs.drop (sepIndex + 1).toNat).take (dotIndex - sepIndex - 1).toNat
    if between.any (fun c => c ≠ '.') then String.mk (cs.drop dotIndex.toNat)
    else ""
  else ""


/-- Printing a completed child's captured streams inside `cmd_run`:
stdout verbatim, stderr error-styled, empty streams printed not at all;
launch failures of any kind are caught by the blanket handler of
src/main.py line 293. -/
def runCaptured (target : String) (r : SpawnResult) : List Output :=
  match r with
  | SpawnResult.completed o e =>
      (if o = "" then [] else [Output.out o]) ++ (if e = "" then [] else [Output.err e])
  | SpawnResult.notFound =>
      [printError ("run: error running '" ++ target ++ "': not found")]
  | SpawnResult.failed m =>
      [printError ("run: error running '" ++ target ++ "': " ++ m)]

/-- `cmd_run` from src/main.py lines 265-294: requires an existing
target; `.py` goes through the Python interpreter, `.sh` through bash
(rejected on Windows), anything else directly when executable, else an
unsupported-file-type error.  Extensions are lower-cased first. -/
def cmd_run (s : Sys) (args : List String) : List Output :=
  match args with
  | [] => [printError "run: missing script or executable name"]
  | target :: rest =>
    if pathExists s.fs target = false then
      [printError ("run: '" ++ target ++ "' does not exist")]
    else
      let ext := String.mk (lowerChars (pySplitextExt s.platform target))
      if ext = ".py" then runCaptured target (s.spawn s.pythonExe (target :: rest))
      else if ext = ".sh" then
        if s.platform = Platform.win32 then
          [printError "run: shell scripts are not supported on Windows"]
        else runCaptured target (s.spawn "bash" (target :: rest))
      else if target ∈ s.fs.execOk then runCaptured target (s.spawn target rest)
      else [printError ("run: cannot execute '" ++ target ++
        "' (unsupported file type or not executable)")]

/-- Python's `str.title` used in the fetch output: upper-case a letter
not preceded by a letter, lower-case the rest. -/
def pyTitleGo : List Char → Bool → List Char
  | [], _ => []
  | c :: cs, prevAlpha =>
      (if prevAlpha then c.toLower else c.toUpper) :: pyTitleGo cs c.isAlpha

def pyTitle (s : String) : String := String.mk (pyTitleGo s.data false)

def weatherInLit : List Char :=
  ['w', 'e', 'a', 't', 'h', 'e', 'r', ' ', 'i', 'n', ' ']

/-- `cmd_fetch` from src/main.py lines 374-397: anchored pattern
`weather in (.+)` on the lower-cased query, then the weather
collaborator; `(.+)` needs at least one non-newline character and
greedily captures up to the first newline. -/
def cmd_fetch (s : Sys) (args : List String) : List Output :=
  if args = [] then [printError "fetch: missing query"]
  else
    let query := lowerChars (String.intercalate " " args)
    match matchLit weatherInLit query with
    | none => [printError "fetch: unsupported query"]
    | some rest =>
      let city := rest.takeWhile (fun c => c ≠ '\n')
      if city = [] then [printError "fetch: unsupported query"]
      else
        match s.weather (String.mk city) with
        | FetchResult.found desc temp =>
            [Output.out ("Weather in " ++ pyTitle (String.mk city) ++ ": " ++ desc ++
              ", Temperature: " ++ temp ++ "Â°C")]
        | FetchResult.cityNotFound =>
            [printError ("fetch: city '" ++ String.mk city ++ "' not found")]
        | FetchResult.netErr m =>
            [printError ("fetch: error fetching weather: " ++ m)]

/-- Result of one dispatch: `sys.exit(0)` for the exit sentinel, or a
new state together with the printed output. -/
inductive Outcome where
  | procExit
  | cont (s : Sys) (out : List Output)

/-- `dispatch_command` from src/main.py lines 305-340: exit sentinel
first, then the built-ins, then the external-process fallback with full
capture, a command-not-found report for a missing executable, and a
generic report for any other launch failure. -/
def dispatch_command (s : Sys) (cmd : String) (args : List String) : Outcome :=
  if cmd = "exit" then Outcome.procExit
  else if cmd = "ls" then Outcome.cont s (cmd_ls s args)
  else if cmd = "cd" then
    let p := cmd_cd s args
    Outcome.cont p.1 p.2
  else if cmd = "pwd" then Outcome.cont s (cmd_pwd s)
  else if cmd = "mkdir" then
    let p := cmd_mkdir s.fs args
    Outcome.cont { s with fs := p.1 } p.2
  else if cmd = "rm" then
    let p := cmd_rm s.fs args
    Outcome.cont { s with fs := p.1 } p.2
  else if cmd = "help" then Outcome.cont s cmd_help
  else if cmd = "monitor" then Outcome.cont s (cmd_monitor s)
  else if cmd = "ai" then
    let p := cmd_ai s args
    Outcome.cont p.1 p.2
  else if cmd = "run" then Outcome.cont s (cmd_run s args)
  else if cmd = "schedule" then
    let p := cmd_schedule args s.jobs
    Outcome.cont { s with jobs := p.1 } p.2
  else if cmd = "fetch" then Outcome.cont s (cmd_fetch s args)
  else
    match s.spawn cmd args with
    | SpawnResult.completed o e =>
        Outcome.cont s
          ((if o = "" then [] else [Output.out o]) ++ (if e = "" then [] else [Output.err e]))
    | SpawnResult.notFound => Outcome.cont s [printError (cmd ++ ": command not found")]
    | SpawnResult.failed m =>
        Outcome.cont s [printError ("Error running command '" ++ cmd ++ "': " ++ m)]

/-- The `job` closure of src/main.py lines 364-366: print the banner,
then evaluate `command[0]` and `command[1:]` and dispatch.  On an empty
stored command, `command[0]` raises IndexError after the banner; the
closure has no handler, so the error escapes to the caller. -/
def jobRun (s : Sys) (j : Job) : List Output × Except String Outcome :=
  let banner := Output.out ("Scheduled job running: " ++ String.intercalate " " j.command)
  match j.command with
  | [] => ([banner], Except.error "IndexError: list index out of range")
  | c :: rest => ([banner], Except.ok (dispatch_command s c rest))

/-- One `schedule.run_pending()` of `run_scheduler` (src/main.py lines
297-300) firing the given due jobs sequentially.  `run_scheduler` wraps
no exception handler around the call, so a job's uncaught exception
(including the SystemExit that `sys.exit` raises for a scheduled
`exit`) propagates and terminates the poller thread, which the
`Except.error` result models. -/
def fireJobs : Sys → List Job → Except String (Sys × List Output)
  | s, [] => Except.ok (s, [])
  | s, j :: rest =>
    match jobRun s j with
    | (_, Except.error e) => Except.error e
    | (_outs, Except.ok Outcome.procExit) => Except.error "SystemExit"
    | (outs, Except.ok (Outcome.cont s' o)) =>
      match fireJobs s' rest with
      | Except.error e => Except.error e
      | Except.ok (s'', os) => Except.ok (s'', outs ++ o ++ os)

/-- Python's `str.strip` (whitespace from both ends). -/
def pyStrip (s : String) : String :=
  String.mk (((s.data.dropWhile pyIsSpace).reverse.dropWhile pyIsSpace).reverse)

/-- Accumulator-based tokenizer behind `pySplit`: `acc` holds the
reversed characters of the token being read. -/
def pySplitAux : List Char → List Char → List String
  | acc, [] => if acc = [] then [] else [String.mk acc.reverse]
  | acc, c :: cs =>
    if pyIsSpace c then
      if acc = [] then pySplitAux [] cs
      else String.mk acc.reverse :: pySplitAux [] cs
    else pySplitAux (c :: acc) cs

/-- Python's `str.split()` with no separator: split on whitespace runs,
discarding empty pieces. -/
def pySplit (s : String) : List String := pySplitAux [] s.data

/-- The prompt rendered each iteration of `main`
(src/main.py line 403): the current working directory followed by
" $ ". -/
def renderPrompt (s : Sys) : String := s.cwd ++ " $ "

/-- What the REPL receives for one iteration: a line, a keyboard
interrupt during input, or end of input. -/
inductive InputEvent where
  | line (raw : String)
  | interrupt
  | eof

/-- Result of one REPL iteration: back to reading with a new state, or
leaving the loop (via the exit sentinel or end of input). -/
inductive ReplResult where
  | next (s : Sys) (out : List Output)
  | exitLoop (out : List Output)

/-- One iteration of the `while True` loop of `main` (src/main.py lines
399-415): strip the line, skip it when empty, split on whitespace into
verb and arguments and dispatch; KeyboardInterrupt prints a blank line
and loops, EOFError prints a blank line and breaks. -/
def replStep (s : Sys) (ev : InputEvent) : ReplResult :=
  match ev with
  | InputEvent.interrupt => ReplResult.next s [Output.out ""]
  | InputEvent.eof => ReplResult.exitLoop [Output.out ""]
  | InputEvent.line raw =>
    let inp := pyStrip raw
    if inp = "" then ReplResult.next s []
    else
      match pySplit inp with
      | [] => ReplResult.next s []
      | cmd :: args =>
        match dispatch_command s cmd args with
        | Outcome.procExit => ReplResult.exitLoop []
        | Outcome.cont s' out => ReplResult.next s' out

/-- A concrete baseline system used to instantiate the theorems: empty
filesystem, no jobs, POSIX host, every spawn reporting a missing
executable. -/
def sysDemo : Sys :=
  { fs := { entries := [], denied := [], osFail := [], execOk := [] }
    cwd := "/home/user"
    home := "/home/user"
    jobs := []
    platform := Platform.posix
    pythonExe := "/usr/bin/python3"
    spawn := fun _ _ => SpawnResult.notFound
    weather := fun _ => FetchResult.cityNotFound
    cpuPct := 10, memPct := 20, memUsedMB := 1000, memTotalMB := 4000 }

/-- A system holding a non-executable file literally named ".py", with a
spawn oracle that would report success. -/
def sysDotPy : Sys :=
  { sysDemo with
    fs := { entries := [(".py", EntryKind.file)], denied := [], osFail := [], execOk := [] }
    spawn := fun _ _ => SpawnResult.completed "ran" "" }

/-- A system holding an ordinary Python script, with a succeeding spawn
oracle. -/
def sysPyScript : Sys :=
  { sysDemo with
    fs := { entries := [("t.py", EntryKind.file)], denied := [], osFail := [], execOk := [] }
    spawn := fun _ _ => SpawnResult.completed "ok" "" }

/-- The character list of the phrase prefix "create a folder " used by
the amended single-token statement. -/
def createPhrase : List Char :=
  ['c', 'r', 'e', 'a', 't', 'e', ' ', 'a', ' ', 'f', 'o', 'l', 'd', 'e', 'r', ' ']

def createPhraseTail : List Char :=
  ['r', 'e', 'a', 't', 'e', ' ', 'a', ' ', 'f', 'o', 'l', 'd', 'e', 'r', ' ']

theorem mkdirList_length (fs : FS) (ds : List String) :
    (mkdirList fs ds).2.length = ds.length := by
  induction ds generalizing fs with
  | nil => rfl
  | cons d ds ih => simp [mkdirList, ih]

theorem rmList_length (fs : FS) (ts : List String) :
    (rmList fs ts).2.length = ts.length := by
  induction ts generalizing fs with
  | nil => rfl
  | cons t ts ih => simp [rmList, ih]

/-- C1: for every argument list, when the length guard passes, an 'at'
keyword is present, a non-empty time token follows it and that token
passes the strptime HH:MM parse, exactly one job is appended, carrying
the tokens before the first 'at'; in every other case the job list is
unchanged and a single schedule-prefixed error line is printed. -/
theorem schedule_registration (args : List String) (jobs : List Job) :
    (∀ i t, 3 ≤ args.length → args.findIdx? (fun a => a == "at") = some i →
      args[i + 1]? = some t → t ≠ "" → validHHMM t = true →
      cmd_schedule args jobs =
        (jobs ++ [{ time := t, command := args.take i }],
         [Output.out ("Scheduled command '" ++ String.intercalate " " (args.take i) ++
           "' at " ++ t)])) ∧
    ((¬ ∃ i t, 3 ≤ args.length ∧ args.findIdx? (fun a => a == "at") = some i ∧
        args[i + 1]? = some t ∧ t ≠ "" ∧ validHHMM t = true) →
      (cmd_schedule args jobs).1 = jobs ∧
      ∃ m, (cmd_schedule args jobs).2 = [printError ("schedule: " ++ m)]) := by
  constructor
  · intro i t hlen hat ht htne hv
    have hlt : ¬ args.length < 3 := by omega
    simp [cmd_schedule, hlt, hat, ht, htne, hv]
  · intro hno
    by_cases hlt : args.length < 3
    · exact ⟨by simp [cmd_schedule, hlt], "usage: schedule <command...> at HH:MM",
        by simp [cmd_schedule, hlt]⟩
    · cases hat : args.findIdx? (fun a => a == "at") with
      | none =>
        exact ⟨by simp [cmd_schedule, hlt, hat], "missing 'at' keyword",
          by simp [cmd_schedule, hlt, hat]⟩
      | some i =>
        cases ht : args[i + 1]? with
        | none =>
          exact ⟨by simp [cmd_schedule, hlt, hat, ht], "missing time after 'at'",
            by simp [cmd_schedule, hlt, hat, ht]⟩
        | some t =>
          by_cases htne : t = ""
          · exact ⟨by simp [cmd_schedule, hlt, hat, ht, htne],
              "missing time after 'at'",
              by simp [cmd_schedule, hlt, hat, ht, htne]⟩
          · by_cases hv : validHHMM t = true
            · exact absurd ⟨i, t, by omega, hat, ht, htne, hv⟩ hno
            · exact ⟨by simp [cmd_schedule, hlt, hat, ht, htne, hv],
                "time must be in HH:MM format",
                by simp [cmd_schedule, hlt, hat, ht, htne, hv]⟩

theorem schedule_registration_witness :
    cmd_schedule ["echo", "hi", "at", "09:30"] [] =
      ([{ time := "09:30", command := ["echo", "hi"] }],
       [Output.out "Scheduled command 'echo hi' at 09:30"]) := by
  have h := (schedule_registration ["echo", "hi", "at", "09:30"] []).1 2 "09:30"
    (by decide) (by decide) (by decide) (by decide) (by decide)
  simpa using h

/-- C9: for every schedule invocation whose first argument token is the
literal 'at', with at least three tokens and a valid HH:MM time right
after 'at', the guards pass with `at_index = 0`, so the registered job
stores the empty command list `args[:0]`; firing that job on any system
prints the banner and then raises IndexError evaluating `command[0]`,
and the error escapes `run_pending` regardless of the jobs queued behind
it, terminating the poller thread. -/
theorem schedule_at_first_token_empty_job (args : List String) (jobs : List Job) (t : String)
    (h0 : args.head? = some "at") (hlen : 3 ≤ args.length)
    (ht : args[1]? = some t) (hv : validHHMM t = true) :
    cmd_schedule args jobs =
      (jobs ++ [{ time := t, command := [] }],
       [Output.out ("Scheduled command '' at " ++ t)]) ∧
    (∀ s : Sys, jobRun s { time := t, command := [] } =
      ([Output.out "Scheduled job running: "],
       Except.error "IndexError: list index out of range")) ∧
    (∀ (s : Sys) (rest : List Job), fireJobs s ({ time := t, command := [] } :: rest) =
      Except.error "IndexError: list index out of range") := by
  cases args with
  | nil => exact absurd h0 (by simp)
  | cons a tl =>
    have ha : a = "at" := by simpa using h0
    subst ha
    refine ⟨?_, fun s => rfl, fun s rest => rfl⟩
    have hlt : ¬ tl.length + 1 < 3 := by
      have hlen' : 3 ≤ tl.length + 1 := by simpa using hlen
      omega
    have hfind : List.findIdx? (fun a => a == "at") ("at" :: tl) = some 0 := rfl
    have htne : t ≠ "" := by
      rintro rfl
      revert hv
      decide
    simp [cmd_schedule, hlt, hfind, ht, htne, hv]
    rfl

theorem schedule_at_first_token_empty_job_witness :
    cmd_schedule ["at", "10:00", "x"] [] =
      ([{ time := "10:00", command := [] }], [Output.out "Scheduled command '' at 10:00"]) ∧
    fireJobs sysDemo [{ time := "10:00", command := [] }] =
      Except.error "IndexError: list index out of range" := by
  have h := schedule_at_first_token_empty_job ["at", "10:00", "x"] [] "10:00"
    rfl (by decide) rfl (by decide)
  exact ⟨h.1, h.2.2 sysDemo []⟩

/-- C5: `mkdir` and `rm` process every target of a multi-argument
invocation, emitting exactly one report per target (a failure never
aborts the batch), each step threading its state into the remaining
targets; concretely, `mkdir a b` with `a` present reports File exists
for `a` and still creates `b`. -/
theorem mkdir_rm_per_target :
    (∀ (fs : FS) (args : List String), args ≠ [] →
      (cmd_mkdir fs args).2.length = args.length) ∧
    (∀ (fs : FS) (args : List String), args ≠ [] →
      (cmd_rm fs args).2.length = args.length) ∧
    (∀ (fs : FS) (d : String) (ds : List String),
      mkdirList fs (d :: ds) =
        ((mkdirList (mkdirOne fs d).1 ds).1,
         (mkdirOne fs d).2 :: (mkdirList (mkdirOne fs d).1 ds).2)) ∧
    (∀ (fs : FS) (t : String) (ts : List String),
      rmList fs (t :: ts) =
        ((rmList (rmOne fs t).1 ts).1, (rmOne fs t).2 :: (rmList (rmOne fs t).1 ts).2)) ∧
    cmd_mkdir { entries := [("a", EntryKind.dir)], denied := [], osFail := [], execOk := [] }
        ["a", "b"] =
      ({ entries := [("a", EntryKind.dir), ("b", EntryKind.dir)],
         denied := [], osFail := [], execOk := [] },
       [printError "mkdir: cannot create directory 'a': File exists",
        Output.out "Directory 'b' created."]) := by
  refine ⟨?_, ?_, fun fs d ds => rfl, fun fs t ts => rfl, by decide⟩
  · intro fs args h
    simp [cmd_mkdir, h, mkdirList_length]
  · intro fs args h
    simp [cmd_rm, h, rmList_length]

theorem mkdir_rm_per_target_witness :
    (cmd_mkdir { entries := [], denied := [], osFail := [], execOk := [] }
      ["p", "q"]).2.length = 2 ∧
    (cmd_rm { entries := [], denied := [], osFail := [], execOk := [] }
      ["p", "q"]).2.length = 2 := by
  exact ⟨mkdir_rm_per_target.1 _ _ (by decide), mkdir_rm_per_target.2.1 _ _ (by decide)⟩

/-- C6: when the phrase is classified as a move (and not as a create),
the source exists and the destination does not, the move branch reports
the destination-not-found error and leaves the filesystem completely
unchanged. -/
theorem ai_move_missing_destination (fs : FS) (phrase src dst : String)
    (hc : scanGreedy createTail (lowerChars phrase) = none)
    (hm : scanGreedy moveTail (lowerChars phrase) = some (src, dst))
    (hs : pathExists fs src = true)
    (hd : pathExists fs dst = false) :
    parse_natural_language fs phrase =
      (fs, [printError ("Destination folder '" ++ dst ++ "' does not exist.")]) := by
  simp [parse_natural_language, nlMoveEffect, hc, hm, hs, hd]

theorem ai_move_missing_destination_witness :
    parse_natural_language
        { entries := [("demo", EntryKind.dir)], denied := [], osFail := [], execOk := [] }
        "move demo to archive" =
      ({ entries := [("demo", EntryKind.dir)], denied := [], osFail := [], execOk := [] },
       [printError "Destination folder 'archive' does not exist."]) := by
  exact ai_move_missing_destination _ _ "demo" "archive" (by decide) (by decide)
    (by decide) (by decide)

/-- C2: the matcher is a total function trying the create, move, remove
and list patterns in that fixed order, the first matching pattern
determining the intent; the ambiguous input "remove x to y" is resolved
to a move (its `.*move` prefix matches inside the word "remove") rather
than a removal. -/
theorem matcher_priority :
    (∀ s n, scanGreedy createTail (lowerChars s) = some n →
      nlIntent s = Intent.createFolder n) ∧
    (∀ s p, scanGreedy createTail (lowerChars s) = none →
      scanGreedy moveTail (lowerChars s) = some p →
      nlIntent s = Intent.moveEntry p.1 p.2) ∧
    (∀ s t, scanGreedy createTail (lowerChars s) = none →
      scanGreedy moveTail (lowerChars s) = none →
      scanGreedy removeTail (lowerChars s) = some t →
      nlIntent s = Intent.removeEntry t) ∧
    (∀ s f, scanGreedy createTail (lowerChars s) = none →
      scanGreedy moveTail (lowerChars s) = none →
      scanGreedy removeTail (lowerChars s) = none →
      scanGreedy listTail (lowerChars s) = some f →
      nlIntent s = Intent.listFolder f) ∧
    (∀ s, scanGreedy createTail (lowerChars s) = none →
      scanGreedy moveTail (lowerChars s) = none →
      scanGreedy removeTail (lowerChars s) = none →
      scanGreedy listTail (lowerChars s) = none →
      nlIntent s = Intent.unrecognized) ∧
    nlIntent "remove x to y" = Intent.moveEntry "x" "y" := by
  refine ⟨?_, ?_, ?_, ?_, ?_, by decide⟩
  · intro s n h; simp [nlIntent, h]
  · intro s p h1 h2; simp [nlIntent, h1, h2]
  · intro s t h1 h2 h3; simp [nlIntent, h1, h2, h3]
  · intro s f h1 h2 h3 h4; simp [nlIntent, h1, h2, h3, h4]
  · intro s h1 h2 h3 h4; simp [nlIntent, h1, h2, h3, h4]

theorem matcher_priority_witness :
    nlIntent "create a folder demo" = Intent.createFolder "demo" ∧
    nlIntent "move a.txt into b" = Intent.moveEntry "a.txt" "b" := by
  exact ⟨matcher_priority.1 "create a folder demo" "demo" (by decide),
    matcher_priority.2.1 "move a.txt into b" ("a.txt", "b") (by decide) (by decide)⟩

/-- C7: each REPL iteration renders a prompt containing the current
working directory; an empty or whitespace-only line is skipped without
dispatching; any other line is split on whitespace into a verb and
arguments and dispatched; a keyboard interrupt prints a blank line and
returns to reading; end of input leaves the loop. -/
theorem repl_iteration (s : Sys) :
    (∃ rest, renderPrompt s = s.cwd ++ rest) ∧
    (∀ raw, pyStrip raw = "" → replStep s (InputEvent.line raw) = ReplResult.next s []) ∧
    (∀ raw cmd args, pyStrip raw ≠ "" → pySplit (pyStrip raw) = cmd :: args →
      replStep s (InputEvent.line raw) =
        (match dispatch_command s cmd args with
         | Outcome.procExit => ReplResult.exitLoop []
         | Outcome.cont s' out => ReplResult.next s' out)) ∧
    replStep s InputEvent.interrupt = ReplResult.next s [Output.out ""] ∧
    replStep s InputEvent.eof = ReplResult.exitLoop [Output.out ""] := by
  refine ⟨⟨" $ ", rfl⟩, ?_, ?_, rfl, rfl⟩
  · intro raw h; simp [replStep, h]
  · intro raw cmd args h hsplit
    simp [replStep, h, hsplit]

theorem repl_iteration_witness :
    replStep sysDemo (InputEvent.line "   ") = ReplResult.next sysDemo [] := by
  exact (repl_iteration sysDemo).2.1 "   " (by decide)

/-- C4: dispatch resolution order — the exit sentinel terminates the
process first; each built-in name invokes its handler on the argument
list; any other verb is spawned externally with full capture, stdout
printed verbatim and stderr error-styled, a missing executable reported
as command-not-found and any other launch failure reported generically
with its cause. -/
theorem dispatch_resolution (s : Sys) (cmd : String) (args : List String) :
    (cmd = "exit" → dispatch_command s cmd args = Outcome.procExit) ∧
    dispatch_command s "ls" args = Outcome.cont s (cmd_ls s args) ∧
    dispatch_command s "cd" args = Outcome.cont (cmd_cd s args).1 (cmd_cd s args).2 ∧
    dispatch_command s "pwd" args = Outcome.cont s (cmd_pwd s) ∧
    dispatch_command s "mkdir" args =
      Outcome.cont { s with fs := (cmd_mkdir s.fs args).1 } (cmd_mkdir s.fs args).2 ∧
    dispatch_command s "rm" args =
      Outcome.cont { s with fs := (cmd_rm s.fs args).1 } (cmd_rm s.fs args).2 ∧
    dispatch_command s "help" args = Outcome.cont s cmd_help ∧
    dispatch_command s "monitor" args = Outcome.cont s (cmd_monitor s) ∧
    dispatch_command s "ai" args = Outcome.cont (cmd_ai s args).1 (cmd_ai s args).2 ∧
    dispatch_command s "run" args = Outcome.cont s (cmd_run s args) ∧
    dispatch_command s "schedule" args =
      Outcome.cont { s with jobs := (cmd_schedule args s.jobs).1 } (cmd_schedule args s.jobs).2 ∧
    dispatch_command s "fetch" args = Outcome.cont s (cmd_fetch s args) ∧
    (cmd ∉ ["exit", "ls", "cd", "pwd", "mkdir", "rm", "help", "monitor", "ai", "run",
        "schedule", "fetch"] →
      (∀ o e, s.spawn cmd args = SpawnResult.completed o e →
        dispatch_command s cmd args =
          Outcome.cont s ((if o = "" then [] else [Output.out o]) ++
            (if e = "" then [] else [Output.err e]))) ∧
      (s.spawn cmd args = SpawnResult.notFound →
        dispatch_command s cmd args = Outcome.cont s [printError (cmd ++ ": command not found")]) ∧
      (∀ m, s.spawn cmd args = SpawnResult.failed m →
        dispatch_command s cmd args =
          Outcome.cont s [printError ("Error running command '" ++ cmd ++ "': " ++ m)])) := by
  refine ⟨fun h => by simp [dispatch_command, h], rfl, rfl, rfl, rfl, rfl, rfl, rfl, rfl,
    rfl, rfl, rfl, ?_⟩
  intro h
  simp only [List.mem_cons, List.mem_singleton, not_or] at h
  obtain ⟨h1, h2, h3, h4, h5, h6, h7, h8, h9, h10, h11, h12, -⟩ := h
  refine ⟨?_, ?_, ?_⟩
  · intro o e hs
    simp [dispatch_command, h1, h2, h3, h4, h5, h6, h7, h8, h9, h10, h11, h12, hs]
  · intro hs
    simp [dispatch_command, h1, h2, h3, h4, h5, h6, h7, h8, h9, h10, h11, h12, hs]
  · intro m hs
    simp [dispatch_command, h1, h2, h3, h4, h5, h6, h7, h8, h9, h10, h11, h12, hs]

theorem dispatch_resolution_witness :
    dispatch_command sysDemo "exit" ["now"] = Outcome.procExit ∧
    dispatch_command sysDemo "frobnicate" ["z"] =
      Outcome.cont sysDemo [printError "frobnicate: command not found"] := by
  exact ⟨(dispatch_resolution sysDemo "exit" ["now"]).1 rfl,
    ((dispatch_resolution sysDemo "frobnicate" ["z"]).2.2.2.2.2.2.2.2.2.2.2.2
      (by decide)).2.1 rfl⟩

/-- C8 counterexample: a target literally named ".py" ends in ".py", but
`os.path.splitext` treats it as a dot-file with no extension, so
`cmd_run` does not hand it to the Python interpreter — being
non-executable it is rejected as an unsupported file type, although the
spawn oracle would have succeeded. -/
theorem run_dotpy_counterexample :
    cmd_run sysDotPy [".py"] =
      [printError "run: cannot execute '.py' (unsupported file type or not executable)"] ∧
    cmd_run sysDotPy [".py"] ≠
      runCaptured ".py" (sysDotPy.spawn sysDotPy.pythonExe [".py"]) := by
  exact ⟨by decide, by decide⟩

/-- C8 amended: `run` with no argument or a missing target fails with an
error; a target whose splitext extension (suffix after the last dot of
the base name, provided an earlier non-dot character exists there)
lower-cases to ".py" runs through the Python interpreter with trailing
arguments passed through; one lower-casing to ".sh" runs through bash on
non-Windows hosts and is an explicit unsupported-feature error on
Windows; a target with neither extension runs directly if and only if it
is executable, and otherwise is an unsupported-file-type error. -/
theorem run_dispatch (s : Sys) (args : List String) :
    (args = [] → cmd_run s args = [printError "run: missing script or executable name"]) ∧
    (∀ t rest, args = t :: rest → pathExists s.fs t = false →
      cmd_run s args = [printError ("run: '" ++ t ++ "' does not exist")]) ∧
    (∀ t rest, args = t :: rest → pathExists s.fs t = true →
      String.mk (lowerChars (pySplitextExt s.platform t)) = ".py" →
      cmd_run s args = runCaptured t (s.spawn s.pythonExe (t :: rest))) ∧
    (∀ t rest, args = t :: rest → pathExists s.fs t = true →
      String.mk (lowerChars (pySplitextExt s.platform t)) = ".sh" →
      s.platform = Platform.win32 →
      cmd_run s args = [printError "run: shell scripts are not supported on Windows"]) ∧
    (∀ t rest, args = t :: rest → pathExists s.fs t = true →
      String.mk (lowerChars (pySplitextExt s.platform t)) = ".sh" →
      s.platform ≠ Platform.win32 →
      cmd_run s args = runCaptured t (s.spawn "bash" (t :: rest))) ∧
    (∀ t rest, args = t :: rest → pathExists s.fs t = true →
      String.mk (lowerChars (pySplitextExt s.platform t)) ≠ ".py" →
      String.mk (lowerChars (pySplitextExt s.platform t)) ≠ ".sh" →
      t ∈ s.fs.execOk →
      cmd_run s args = runCaptured t (s.spawn t rest)) ∧
    (∀ t rest, args = t :: rest → pathExists s.fs t = true →
      String.mk (lowerChars (pySplitextExt s.platform t)) ≠ ".py" →
      String.mk (lowerChars (pySplitextExt s.platform t)) ≠ ".sh" →
      t ∉ s.fs.execOk →
      cmd_run s args = [printError ("run: cannot execute '" ++ t ++
        "' (unsupported file type or not executable)")]) := by
  refine ⟨?_, ?_, ?_, ?_, ?_, ?_, ?_⟩
  · intro h; subst h; rfl
  · intro t rest h hex; subst h; simp [cmd_run, hex]
  · intro t rest h hex hpy; subst h; simp [cmd_run, hex, hpy]
  · intro t rest h hex hsh hw; subst h
    have hpy : String.mk (lowerChars (pySplitextExt s.platform t)) ≠ ".py" := by
      rw [hsh]; decide
    rw [hw] at hsh hpy
    simp [cmd_run, hex, hpy, hsh, hw]
  · intro t rest h hex hsh hw; subst h
    have hpy : String.mk (lowerChars (pySplitextExt s.platform t)) ≠ ".py" := by
      rw [hsh]; decide
    simp [cmd_run, hex, hpy, hsh, hw]
  · intro t rest h hex hpy hsh hx; subst h
    simp [cmd_run, hex, hpy, hsh, hx]
  · intro t rest h hex hpy hsh hx; subst h
    simp [cmd_run, hex, hpy, hsh, hx]

theorem run_dispatch_witness :
    cmd_run sysPyScript ["t.py", "a"] =
      runCaptured "t.py" (sysPyScript.spawn sysPyScript.pythonExe ["t.py", "a"]) := by
  exact (run_dispatch sysPyScript ["t.py", "a"]).2.2.1 "t.py" ["a"] rfl (by decide) (by decide)

theorem dispatch_not_exit (s : Sys) (cmd : String) (args : List String)
    (h : cmd ≠ "exit") : ∃ s' o, dispatch_command s cmd args = Outcome.cont s' o := by
  by_cases h2 : cmd = "ls"
  · subst h2; exact ⟨_, _, rfl⟩
  by_cases h3 : cmd = "cd"
  · subst h3; exact ⟨_, _, rfl⟩
  by_cases h4 : cmd = "pwd"
  · subst h4; exact ⟨_, _, rfl⟩
  by_cases h5 : cmd = "mkdir"
  · subst h5; exact ⟨_, _, rfl⟩
  by_cases h6 : cmd = "rm"
  · subst h6; exact ⟨_, _, rfl⟩
  by_cases h7 : cmd = "help"
  · subst h7; exact ⟨_, _, rfl⟩
  by_cases h8 : cmd = "monitor"
  · subst h8; exact ⟨_, _, rfl⟩
  by_cases h9 : cmd = "ai"
  · subst h9; exact ⟨_, _, rfl⟩
  by_cases h10 : cmd = "run"
  · subst h10; exact ⟨_, _, rfl⟩
  by_cases h11 : cmd = "schedule"
  · subst h11; exact ⟨_, _, rfl⟩
  by_cases h12 : cmd = "fetch"
  · subst h12; exact ⟨_, _, rfl⟩
  unfold dispatch_command
  rw [if_neg h, if_neg h2, if_neg h3, if_neg h4, if_neg h5, if_neg h6, if_neg h7, if_neg h8,
    if_neg h9, if_neg h10, if_neg h11, if_neg h12]
  rcases hs : s.spawn cmd args with ⟨o, e⟩ | _ | m
  · exact ⟨_, _, rfl⟩
  · exact ⟨_, _, rfl⟩
  · exact ⟨_, _, rfl⟩

/-- C3 counterexample: the interactive command `schedule at 10:00 x` is
handled without a fatal error, but it registers a job with an empty
stored command; when the poller later fires that job the IndexError is
uncaught inside `run_scheduler`, so the scheduler does not continue
checking and firing subsequent jobs — the error is fatal to the poller
thread. -/
theorem scheduler_fatal_counterexample :
    (cmd_schedule ["at", "10:00", "x"] sysDemo.jobs).1 =
      [{ time := "10:00", command := [] }] ∧
    fireJobs sysDemo ((cmd_schedule ["at", "10:00", "x"] sysDemo.jobs).1 ++
        [{ time := "11:00", command := ["pwd"] }]) =
      Except.error "IndexError: list index out of range" := by
  exact ⟨by decide, rfl⟩

/-- C3 amended: errors during interactive command handling are not
fatal — every non-exit line returns the REPL to reading — and a
scheduler tick completes normally provided no fired job has an empty
stored command (the IndexError case) or the exit verb (whose SystemExit
also escapes the poller); the empty-command job of the counterexample is
the exception the original claim missed. -/
theorem errors_nonfatal_amended :
    (∀ (s : Sys) (raw : String), pyStrip raw ≠ "" →
      (pySplit (pyStrip raw)).head? ≠ some "exit" →
      ∃ s' out, replStep s (InputEvent.line raw) = ReplResult.next s' out) ∧
    (∀ (s : Sys) (due : List Job),
      (∀ j ∈ due, j.command ≠ [] ∧ j.command.head? ≠ some "exit") →
      ∃ r, fireJobs s due = Except.ok r) := by
  constructor
  · intro s raw hne hhead
    simp only [replStep]
    rw [if_neg hne]
    cases hsplit : pySplit (pyStrip raw) with
    | nil => exact ⟨s, [], rfl⟩
    | cons cmd args =>
      rw [hsplit] at hhead
      have hcmd : cmd ≠ "exit" := by
        intro h; exact hhead (by rw [h]; rfl)
      obtain ⟨s', o, hd⟩ := dispatch_not_exit s cmd args hcmd
      exact ⟨s', o, by simp [hd]⟩
  · intro s due h
    induction due generalizing s with
    | nil => exact ⟨(s, []), rfl⟩
    | cons j rest ih =>
      obtain ⟨hcmd, hhead⟩ := h j (List.mem_cons_self j rest)
      cases hj : j.command with
      | nil => exact absurd hj hcmd
      | cons c cs =>
        have hc : c ≠ "exit" := by
          intro hce; rw [hj, hce] at hhead; exact hhead rfl
        obtain ⟨s', o, hd⟩ := dispatch_not_exit s c cs hc
        obtain ⟨r, hr⟩ := ih s' (fun j' hj' => h j' (List.mem_cons_of_mem j hj'))
        refine ⟨(r.1, ?_), ?_⟩
        · exact [Output.out ("Scheduled job running: " ++ String.intercalate " " j.command)] ++
            o ++ r.2
        · simp [fireJobs, jobRun, hj, hd, hr]

theorem errors_nonfatal_amended_witness :
    (∃ s' out, replStep sysDemo (InputEvent.line "mkdir x") = ReplResult.next s' out) ∧
    (∃ r, fireJobs sysDemo [{ time := "10:00", command := ["pwd"] }] = Except.ok r) := by
  refine ⟨errors_nonfatal_amended.1 sysDemo "mkdir x" (by decide) (by decide),
    errors_nonfatal_amended.2 sysDemo [{ time := "10:00", command := ["pwd"] }] ?_⟩
  intro j hj
  simp only [List.mem_singleton] at hj
  subst hj
  exact ⟨by decide, by decide⟩

/-- C10 counterexample: in "create a folder x create a folder y" the
greedy `.*` prefix of the create pattern selects the last matching
occurrence, so the extracted folder name is "y", not the first word
after the first "create a folder". -/
theorem nl_first_token_counterexample :
    nlIntent "create a folder x create a folder y" = Intent.createFolder "y" ∧
    nlIntent "create a folder x create a folder y" ≠ Intent.createFolder "x" := by
  exact ⟨by decide, by decide⟩

theorem takeTok_props {cs : List Char} {p : List Char × List Char}
    (h : takeTok cs = some p) :
    p.1 ≠ [] ∧ ∀ c ∈ p.1, pyIsSpace c = false := by
  simp only [takeTok] at h
  by_cases he : cs.takeWhile (fun c => !pyIsSpace c) = []
  · simp [he] at h
  · rw [if_neg he] at h
    cases h
    exact ⟨he, fun c hc => by simpa using List.mem_takeWhile_imp hc⟩

theorem tokString_props {r : List Char} {n : String}
    (h : (takeTok r).map (fun p => String.mk p.1) = some n) :
    n ≠ "" ∧ ∀ c ∈ n.data, pyIsSpace c = false := by
  cases ht : takeTok r with
  | none => rw [ht] at h; cases h
  | some p =>
    rw [ht] at h
    obtain ⟨hne, hmem⟩ := takeTok_props ht
    cases h
    refine ⟨fun hc => hne ?_, hmem⟩
    have := congrArg String.data hc
    simpa using this

theorem folderDirTail_token {cs : List Char} {n : String} (h : folderDirTail cs = some n) :
    n ≠ "" ∧ ∀ c ∈ n.data, pyIsSpace c = false := by
  unfold folderDirTail at h
  cases h1 : matchLit folderLit cs with
  | some r => rw [h1] at h; exact tokString_props h
  | none =>
    rw [h1] at h
    cases h2 : matchLit directoryLit cs with
    | some r => rw [h2] at h; exact tokString_props h
    | none => rw [h2] at h; cases h

theorem createTail_token {cs : List Char} {n : String} (h : createTail cs = some n) :
    n ≠ "" ∧ ∀ c ∈ n.data, pyIsSpace c = false := by
  unfold createTail at h
  split at h
  · exact Option.noConfusion h
  · split at h
    · split at h
      · rename_i h3
        cases h
        exact folderDirTail_token h3
      · exact folderDirTail_token h
    · exact folderDirTail_token h

theorem moveTail_token {cs : List Char} {p : String × String} (h : moveTail cs = some p) :
    (p.1 ≠ "" ∧ ∀ c ∈ p.1.data, pyIsSpace c = false) ∧
    (p.2 ≠ "" ∧ ∀ c ∈ p.2.data, pyIsSpace c = false) := by
  unfold moveTail at h
  split at h
  · exact Option.noConfusion h
  · split at h
    · exact Option.noConfusion h
    · rename_i q h2
      split at h
      · exact Option.noConfusion h
      · split at h
        · exact Option.noConfusion h
        · split at h
          · exact Option.noConfusion h
          · rename_i r3 h4 d h5
            obtain ⟨hq, hqmem⟩ := takeTok_props h2
            obtain ⟨hd, hdmem⟩ := takeTok_props h5
            cases h
            constructor
            · refine ⟨fun hc => hq ?_, hqmem⟩
              have := congrArg String.data hc
              simpa using this
            · refine ⟨fun hc => hd ?_, hdmem⟩
              have := congrArg String.data hc
              simpa using this

theorem removeTail_token {cs : List Char} {n : String} (h : removeTail cs = some n) :
    n ≠ "" ∧ ∀ c ∈ n.data, pyIsSpace c = false := by
  unfold removeTail at h
  cases h1 : matchLit removeLit cs with
  | none => rw [h1] at h; cases h
  | some r => rw [h1] at h; exact tokString_props h

theorem listTail_token {cs : List Char} {n : String} (h : listTail cs = some n) :
    n ≠ "" ∧ ∀ c ∈ n.data, pyIsSpace c = false := by
  unfold listTail at h
  cases h1 : matchLit listFilesInLit cs with
  | none => rw [h1] at h; cases h
  | some r => rw [h1] at h; exact tokString_props h

theorem scanGreedy_some {α : Type} {f : List Char → Option α} :
    ∀ {s : List Char} {v : α}, scanGreedy f s = some v → ∃ t, f t = some v := by
  intro s
  induction s with
  | nil => intro v h; exact ⟨[], h⟩
  | cons c cs ih =>
    intro v h
    simp only [scanGreedy] at h
    by_cases hc : c = '\n'
    · rw [if_pos hc] at h; exact ⟨c :: cs, h⟩
    · rw [if_neg hc] at h
      cases hr : scanGreedy f cs with
      | some w => rw [hr] at h; cases h; exact ih hr
      | none => rw [hr] at h; exact ⟨c :: cs, h⟩

theorem head_mem_of_suffix {h : Char} {t l : List Char} (hs : (h :: t) <:+ l) : h ∈ l := by
  obtain ⟨p, hp⟩ := hs
  rw [← hp]
  simp

theorem scan_app_none {α : Type} (f : List Char → Option α) {rest : List Char}
    (hrest : scanGreedy f rest = none) :
    ∀ (a : List Char), (∀ a', a' <:+ a → a' ≠ [] → f (a' ++ rest) = none) →
      scanGreedy f (a ++ rest) = none := by
  intro a
  induction a with
  | nil => intro _; simpa using hrest
  | cons x xs ih =>
    intro h
    have hall : f (x :: (xs ++ rest)) = none := h (x :: xs) (List.suffix_refl _) (by simp)
    simp only [List.cons_append, scanGreedy]
    by_cases hx : x = '\n'
    · rw [if_pos hx]; exact hall
    · rw [if_neg hx]
      have hxs : scanGreedy f (xs ++ rest) = none :=
        ih (fun a' ha' hne => h a' (ha'.trans (List.suffix_cons x xs)) hne)
      rw [show scanGreedy f (xs.append rest) = none from hxs]
      exact hall

theorem createTail_not_c {c : Char} (h : c ≠ 'c') (cs : List Char) :
    createTail (c :: cs) = none := by
  have hm : matchLit createLit (c :: cs) = none := by
    simp [createLit, matchLit, h]
  unfold createTail
  rw [hm]

theorem takeWhile_append_all {p : Char → Bool} :
    ∀ (a b : List Char), (∀ c ∈ a, p c = true) →
      (a ++ b).takeWhile p = a ++ b.takeWhile p := by
  intro a b h
  induction a with
  | nil => simp
  | cons x xs ih =>
    have hx : p x = true := h x (List.mem_cons_self x xs)
    simp only [List.cons_append, List.takeWhile_cons, hx, if_true]
    rw [ih (fun c hc => h c (List.mem_cons_of_mem x hc))]

theorem dropWhile_append_all {p : Char → Bool} :
    ∀ (a b : List Char), (∀ c ∈ a, p c = true) →
      (a ++ b).dropWhile p = b.dropWhile p := by
  intro a b h
  induction a with
  | nil => simp
  | cons x xs ih =>
    have hx : p x = true := h x (List.mem_cons_self x xs)
    simp only [List.cons_append, List.dropWhile_cons, hx, if_true]
    exact ih (fun c hc => h c (List.mem_cons_of_mem x hc))

theorem takeTok_token_space {tok ws : List Char} (hne : tok ≠ [])
    (htok : ∀ c ∈ tok, pyIsSpace c = false) :
    takeTok (tok ++ ' ' :: ws) = some (tok, ' ' :: ws) := by
  have hp : ∀ c ∈ tok, (fun c => !pyIsSpace c) c = true := by
    intro c hc; simp [htok c hc]
  have h1 : (tok ++ ' ' :: ws).takeWhile (fun c => !pyIsSpace c) = tok := by
    rw [takeWhile_append_all tok (' ' :: ws) hp]
    simp [List.takeWhile_cons, pyIsSpace]
  have h2 : (tok ++ ' ' :: ws).dropWhile (fun c => !pyIsSpace c) = ' ' :: ws := by
    rw [dropWhile_append_all tok (' ' :: ws) hp]
    simp [List.dropWhile_cons, pyIsSpace]
  simp only [takeTok, h1, h2, if_neg hne]

theorem scanGreedy_cons {α : Type} (f : List Char → Option α) (c : Char) (cs : List Char) :
    scanGreedy f (c :: cs) =
      if c = '\n' then f (c :: cs)
      else
        match scanGreedy f cs with
        | some v => some v
        | none => f (c :: cs) := rfl

theorem scan_create_phrase {rest : List Char} (hrest : scanGreedy createTail rest = none) :
    scanGreedy createTail (createPhrase ++ rest) = createTail (createPhrase ++ rest) := by
  have hin : ∀ a', a' <:+ createPhraseTail → a' ≠ [] → createTail (a' ++ rest) = none := by
    intro a' ha' hne
    cases a' with
    | nil => exact absurd rfl hne
    | cons hd tl =>
      have hm : hd ∈ createPhraseTail := head_mem_of_suffix ha'
      have hnc : hd ≠ 'c' := by
        intro hc
        subst hc
        revert hm
        decide
      exact createTail_not_c hnc (tl ++ rest)
  have h1 : scanGreedy createTail (createPhraseTail ++ rest) = none :=
    scan_app_none createTail hrest createPhraseTail hin
  show scanGreedy createTail ('c' :: (createPhraseTail ++ rest)) = _
  rw [scanGreedy_cons, if_neg (by decide : ¬('c' = '\n')), h1]
  rfl

theorem createTail_phrase_token {n ws : String} (hne : n.data ≠ [])
    (hnos : ∀ c ∈ n.data, pyIsSpace c = false) :
    createTail (createPhrase ++ (n.data ++ ' ' :: ws.data)) = some n := by
  have htk : takeTok (n.data ++ ' ' :: ws.data) = some (n.data, ' ' :: ws.data) :=
    takeTok_token_space hne hnos
  show createTail ('c' :: 'r' :: 'e' :: 'a' :: 't' :: 'e' :: ' ' :: 'a' :: ' ' :: 'f' :: 'o' ::
    'l' :: 'd' :: 'e' :: 'r' :: ' ' :: (n.data ++ ' ' :: ws.data)) = some n
  simp [createTail, folderDirTail, matchLit, createLit, aLit, folderLit, htk]

theorem lower_create_phrase (n ws : String)
    (hln : n.data.map Char.toLower = n.data) (hlws : ws.data.map Char.toLower = ws.data) :
    lowerChars ("create a folder " ++ n ++ " " ++ ws) =
      createPhrase ++ (n.data ++ ' ' :: ws.data) := by
  unfold lowerChars
  rw [String.data_append, String.data_append, String.data_append]
  simp only [List.map_append, hln, hlws]
  have h1 : "create a folder ".data.map Char.toLower = createPhrase := by decide
  have h2 : " ".data.map Char.toLower = [' '] := by decide
  rw [h1, h2]
  simp [List.append_assoc]

/-- C10 amended: every parameter the matcher extracts is a non-empty
whitespace-free token; and for a phrase "create a folder N1 N2 ..." the
extracted name is N1 provided the text after N1 does not itself contain
a later match of the create pattern — without that proviso the greedy
prefix selects the last matching occurrence instead of the first. -/
theorem nl_single_token_amended :
    (∀ s n, nlIntent s = Intent.createFolder n →
      n ≠ "" ∧ ∀ c ∈ n.data, pyIsSpace c = false) ∧
    (∀ s a b, nlIntent s = Intent.moveEntry a b →
      (a ≠ "" ∧ ∀ c ∈ a.data, pyIsSpace c = false) ∧
      (b ≠ "" ∧ ∀ c ∈ b.data, pyIsSpace c = false)) ∧
    (∀ s t, nlIntent s = Intent.removeEntry t →
      t ≠ "" ∧ ∀ c ∈ t.data, pyIsSpace c = false) ∧
    (∀ s f, nlIntent s = Intent.listFolder f →
      f ≠ "" ∧ ∀ c ∈ f.data, pyIsSpace c = false) ∧
    (∀ n ws : String, n ≠ "" → (∀ c ∈ n.data, pyIsSpace c = false) →
      n.data.map Char.toLower = n.data → ws.data.map Char.toLower = ws.data →
      scanGreedy createTail (n.data ++ ' ' :: ws.data) = none →
      nlIntent ("create a folder " ++ n ++ " " ++ ws) = Intent.createFolder n) := by
  refine ⟨?_, ?_, ?_, ?_, ?_⟩
  · intro s n h
    simp only [nlIntent] at h
    split at h
    · rename_i hscan
      cases h
      obtain ⟨t, ht⟩ := scanGreedy_some hscan
      exact createTail_token ht
    · split at h
      · exact Intent.noConfusion h
      · split at h
        · exact Intent.noConfusion h
        · split at h
          · exact Intent.noConfusion h
          · exact Intent.noConfusion h
  · intro s a b h
    simp only [nlIntent] at h
    split at h
    · exact Intent.noConfusion h
    · split at h
      · rename_i hscan
        cases h
        obtain ⟨t, ht⟩ := scanGreedy_some hscan
        exact moveTail_token ht
      · split at h
        · exact Intent.noConfusion h
        · split at h
          · exact Intent.noConfusion h
          · exact Intent.noConfusion h
  · intro s t h
    simp only [nlIntent] at h
    split at h
    · exact Intent.noConfusion h
    · split at h
      · exact Intent.noConfusion h
      · split at h
        · rename_i hscan
          cases h
          obtain ⟨u, hu⟩ := scanGreedy_some hscan
          exact removeTail_token hu
        · split at h
          · exact Intent.noConfusion h
          · exact Intent.noConfusion h
  · intro s f h
    simp only [nlIntent] at h
    split at h
    · exact Intent.noConfusion h
    · split at h
      · exact Intent.noConfusion h
      · split at h
        · exact Intent.noConfusion h
        · split at h
          · rename_i hscan
            cases h
            obtain ⟨u, hu⟩ := scanGreedy_some hscan
            exact listTail_token hu
          · exact Intent.noConfusion h
  · intro n ws hne hnos hln hlws hscan
    have hnd : n.data ≠ [] := by
      intro hc
      apply hne
      cases n
      simp_all
    have hl := lower_create_phrase n ws hln hlws
    have hscan2 : scanGreedy createTail (createPhrase ++ (n.data ++ ' ' :: ws.data)) = some n := by
      rw [scan_create_phrase hscan]
      exact createTail_phrase_token hnd hnos
    simp only [nlIntent, hl, hscan2]

theorem nl_single_token_amended_witness :
    nlIntent "create a folder n1 n2 n3" = Intent.createFolder "n1" := by
  have h := nl_single_token_amended.2.2.2.2 "n1" "n2 n3" (by decide) (by decide) (by decide)
    (by decide) (by decide)
  simpa using h
